import Mathlib

/-!
Verification development for `aws/code/rapids_cloud_ml.py` — a RAPIDS HPO
job wrapper for AWS SageMaker.  The Python module is a thin dispatch layer
over external ML libraries; we shallowly embed its own logic: job-name
parsing, hyper-parameter dict construction, data-input resolution,
dask-cluster sizing, score accumulation, model persistence paths, and the
order of external library calls performed by the ETL stage (modelled as an
event trace, since the data operations themselves are delegated to
pandas/cudf/dask/sklearn/cuml).  Fallible Python code (exceptions, failed
asserts, argparse errors) is modelled with `Option`.
-/

/-- Whether `needle` occurs as a contiguous run inside `hay`. -/
def charsContain (needle : List Char) : List Char → Bool
  | [] => needle.isEmpty
  | x :: xs => needle.isPrefixOf (x :: xs) || charsContain needle xs

/-- Python's `needle in haystack` substring test on strings. -/
def pyIn (needle haystack : String) : Bool :=
  charsContain needle.toList haystack.toList

/-- Fuel-driven worker for `pySplit` (fuel bounds the characters consumed,
so the recursion is structural and evaluates inside the kernel). -/
def pySplitAux (sep : List Char) : Nat → List Char → List Char → List (List Char)
  | 0, s, acc => [acc.reverse ++ s]
  | fuel + 1, s, acc =>
    match s with
    | [] => [acc.reverse]
    | x :: xs =>
      if sep ≠ [] ∧ sep.isPrefixOf (x :: xs) then
        acc.reverse :: pySplitAux sep fuel ((x :: xs).drop sep.length) []
      else
        pySplitAux sep fuel xs (x :: acc)

/-- Python's `s.split(sep)` for a non-empty separator string. -/
def pySplit (s sep : String) : List String :=
  (pySplitAux sep.toList (s.toList.length + 1) s.toList []).map String.mk

/-- Python's `s.lower()` (ASCII case folding, as used by the job names). -/
def pyLower (s : String) : String :=
  String.mk (s.toList.map Char.toLower)

/-- Python's `s.strip()` restricted to whitespace. -/
def pyStrip (s : String) : List Char :=
  ((s.toList.dropWhile (·.isWhitespace)).reverse.dropWhile (·.isWhitespace)).reverse

/-- Numeric value of a list of decimal digit characters. -/
def digitsVal (cs : List Char) : Nat :=
  cs.foldl (fun acc c => acc * 10 + (c.toNat - '0'.toNat)) 0

/-- `some` of the value when the list is a non-empty run of decimal digits. -/
def digitsVal? (cs : List Char) : Option Nat :=
  if cs ≠ [] ∧ cs.all (·.isDigit) then some (digitsVal cs) else none

/-- Python's `int(s)` on a string: optional surrounding whitespace, optional
sign, then decimal digits; anything else raises `ValueError` (`none`).
Underscore digit grouping and non-ASCII digits are not modelled. -/
def pyInt? (s : String) : Option Int :=
  match pyStrip s with
  | '-' :: rest => (digitsVal? rest).map (fun n => -(n : Int))
  | '+' :: rest => (digitsVal? rest).map (fun n => (n : Int))
  | rest => (digitsVal? rest).map (fun n => (n : Int))

/-- An exact decimal literal `(-1)^neg * mantissa / 10^scale`, the value
domain of the float-typed hyper-parameters.  No claim does arithmetic on
these values, so they are kept in this exact syntactic form (two spellings
of the same real, such as `0.5` and `0.50`, are distinct representations;
the claims never compare differently spelled literals). -/
structure DecFloat where
  neg : Bool
  mantissa : Nat
  scale : Nat
deriving DecidableEq, Repr

/-- Python's `float(s)` restricted to plain decimal literals: optional
surrounding whitespace, optional sign, digits with an optional single dot.
Exponents, `inf` and `nan` are not modelled. -/
def pyFloat? (s : String) : Option DecFloat :=
  let core : Bool → List Char → Option DecFloat := fun sgn cs =>
    let ip := cs.takeWhile (· ≠ '.')
    let rest := cs.dropWhile (· ≠ '.')
    match rest with
    | [] =>
        if ip ≠ [] ∧ ip.all (·.isDigit) then some ⟨sgn, digitsVal ip, 0⟩ else none
    | _ :: fp =>
        if (ip ++ fp) ≠ [] ∧ ip.all (·.isDigit) ∧ fp.all (·.isDigit) then
          some ⟨sgn, digitsVal (ip ++ fp), fp.length⟩
        else none
  match pyStrip s with
  | '-' :: rest => core true rest
  | '+' :: rest => core false rest
  | rest => core false rest

-- compute and algorithm defaults (module constants, including the
-- misspelled fallback compute type that can never pass the assert)
def default_model_type : String := "XGBoost"
def default_compute_type : String := "sigle-GPU"
def default_cv_folds : Int := 1

-- hyper-parameter defaults
def default_max_depth : Int := 5
def default_n_estimators : Int := 10

-- directory defaults [ SageMaker specific ]
def default_train_data_dir : String := "/opt/ml/input/data/training/"
def default_model_store_dir : String := "/opt/ml/model"

/-- The `try:` block of `parse_job_name`: sequential assignment of
`compute_type`, `model_type`, `cv_folds` from the hyphen-separated job name,
where the first failing step (missing field / unparseable int) aborts the
block and leaves the later variables at their module defaults. -/
def tryStages (job_name : String) : String × String × Int :=
  let fields := pySplit job_name "-"
  match fields.get? 1 with
  | none => (default_model_type, default_compute_type, default_cv_folds)
  | some f1 =>
    let compute_selection := pyLower f1
    let compute_type :=
      if pyIn "mgpu" compute_selection then "multi-GPU"
      else if pyIn "mcpu" compute_selection then "multi-CPU"
      else if pyIn "scpu" compute_selection then "single-CPU"
      else if pyIn "sgpu" compute_selection then "single-GPU"
      else default_compute_type
    match fields.get? 2 with
    | none => (default_model_type, compute_type, default_cv_folds)
    | some f2 =>
      let model_selection := pyLower f2
      let model_type :=
        if pyIn "rf" model_selection then "RandomForest"
        else if pyIn "xgb" model_selection then "XGBoost"
        else default_model_type
      match fields.get? 3 with
      | none => (model_type, compute_type, default_cv_folds)
      | some f3 =>
        match pyInt? ((pySplit f3 "cv").headD "") with
        | none => (model_type, compute_type, default_cv_folds)
        | some n => (model_type, compute_type, n)

/-- `parse_job_name`: the environment is abstracted to `Option String` — the
job name held in `SM_TRAINING_ENV`, or `none` when the variable is absent
(in which case the `try:` body is skipped and the defaults survive).  The
three trailing `assert` statements are modelled by returning `none`
(AssertionError) when their conjunction fails. -/
def parse_job_name (env_job_name : Option String) : Option (String × String × Int) :=
  let r := match env_job_name with
    | none => (default_model_type, default_compute_type, default_cv_folds)
    | some jn => tryStages jn
  if r.1 ∈ (["RandomForest", "XGBoost"] : List String) ∧
     r.2.1 ∈ (["single-GPU", "multi-GPU", "single-CPU", "multi-CPU"] : List String) ∧
     1 ≤ r.2.2 then
    some r
  else none

/-! ### Hyper-parameter parsing (`parse_hyper_parameter_inputs`) -/

/-- A Python scalar stored in a model-parameter dict. -/
inductive PValue where
  | int (n : Int)
  | float (x : DecFloat)
  | str (s : String)
deriving DecidableEq, Repr

/-- A Python dict with string keys, as an insertion-ordered association list. -/
abbrev PDict := List (String × PValue)

/-- `d[k] = v` for one key: replace in place when the key exists, else append
(CPython dict update semantics). -/
def dictSet (d : PDict) (k : String) (v : PValue) : PDict :=
  if d.any (fun p => p.1 == k) then
    d.map (fun p => if p.1 == k then (k, v) else p)
  else
    d ++ [(k, v)]

/-- Python's `d.update(kvs)`. -/
def dictUpdate (d : PDict) (kvs : List (String × PValue)) : PDict :=
  kvs.foldl (fun acc kv => dictSet acc kv.1 kv.2) d

/-- Lookup in a `PDict`. -/
def dictGet? (d : PDict) (k : String) : Option PValue :=
  (d.find? (fun p => p.1 == k)).map (fun p => p.2)

/-- Whether a `PDict` has an entry for `k`. -/
def dictHasKey (d : PDict) (k : String) : Bool :=
  d.any (fun p => p.1 == k)

/-- Result of scanning `input_args` for one `--flag`. -/
inductive ArgLookup where
  | absent
  | missingValue
  | value (s : String)
deriving DecidableEq, Repr

/-- Scan the argument vector for the LAST occurrence of `flag` and take the
following token as its value (argparse lets later occurrences win).  The
`--flag=value` spelling is not modelled; the orchestrator passes separated
tokens. -/
def argLookup (flag : String) : List String → ArgLookup
  | [] => .absent
  | x :: rest =>
    match argLookup flag rest with
    | .absent =>
        if x == flag then
          match rest.head? with
          | some v => .value v
          | none => .missingValue
        else .absent
    | r => r

/-- An `add_argument(flag, type=int, default=d)` followed by parsing:
`none` models argparse erroring out (missing or unparseable value). -/
def getIntArg (input : List String) (flag : String) (d : Int) : Option Int :=
  match argLookup flag input with
  | .absent => some d
  | .missingValue => none
  | .value s => pyInt? s

/-- An `add_argument(flag, type=float, default=d)` followed by parsing. -/
def getFloatArg (input : List String) (flag : String) (d : DecFloat) : Option DecFloat :=
  match argLookup flag input with
  | .absent => some d
  | .missingValue => none
  | .value s => pyFloat? s

/-- The argparse results for the XGBoost family of flags. -/
structure XGBArgs where
  max_depth : Int
  num_boost_round : Int
  subsample : DecFloat
  learning_rate : DecFloat
  lambda_l2 : DecFloat
  gamma : DecFloat
  alpha : DecFloat
  seed : Int
deriving DecidableEq, Repr

/-- The argparse results for the RandomForest family of flags. -/
structure RFArgs where
  max_depth : Int
  n_estimators : Int
  max_features : DecFloat
  seed : Int
deriving DecidableEq, Repr

/-- Parse the XGBoost flag set declared by `parse_hyper_parameter_inputs`. -/
def parseXGBArgs (input : List String) : Option XGBArgs :=
  (getIntArg input "--max_depth" default_max_depth).bind fun md =>
  (getIntArg input "--num_boost_round" default_n_estimators).bind fun nbr =>
  (getFloatArg input "--subsample" ⟨false, 25, 2⟩).bind fun ss =>
  (getFloatArg input "--learning_rate" ⟨false, 3, 1⟩).bind fun lr =>
  (getFloatArg input "--lambda_l2" ⟨false, 2, 1⟩).bind fun l2 =>
  (getFloatArg input "--gamma" ⟨false, 0, 0⟩).bind fun g =>
  (getFloatArg input "--alpha" ⟨false, 0, 0⟩).bind fun a =>
  (getIntArg input "--seed" 0).bind fun sd =>
  some ⟨md, nbr, ss, lr, l2, g, a, sd⟩

/-- Parse the RandomForest flag set declared by `parse_hyper_parameter_inputs`. -/
def parseRFArgs (input : List String) : Option RFArgs :=
  (getIntArg input "--max_depth" default_max_depth).bind fun md =>
  (getIntArg input "--n_estimators" default_n_estimators).bind fun ne =>
  (getFloatArg input "--max_features" ⟨false, 25, 2⟩).bind fun mf =>
  (getIntArg input "--seed" 0).bind fun sd =>
  some ⟨md, ne, mf, sd⟩

/-- The XGBoost `model_params` dict built from the parsed args, including the
`single-CPU` nthreads entry (`os.cpu_count()` is passed in as `cpu_count`)
and the GPU/CPU `tree_method` choice. -/
def xgb_model_params (compute_type : String) (cpu_count : Nat) (args : XGBArgs) : PDict :=
  let mp : PDict :=
    [ ("max_depth", .int args.max_depth),
      ("num_boost_round", .int args.num_boost_round),
      ("learning_rate", .float args.learning_rate),
      ("gamma", .float args.gamma),
      ("lambda", .float args.lambda_l2),
      ("random_state", .int 0),
      ("verbosity", .int 0),
      ("seed", .int args.seed),
      ("objective", .str "binary:logistic") ]
  let mp := if pyIn "single-CPU" compute_type then
      dictUpdate mp [("nthreads", .int (cpu_count : Int))] else mp
  if pyIn "GPU" compute_type then
    dictUpdate mp [("tree_method", .str "gpu_hist")]
  else
    dictUpdate mp [("tree_method", .str "hist")]

/-- The RandomForest `model_params` dict built from the parsed args. -/
def rf_model_params (args : RFArgs) : PDict :=
  [ ("max_depth", .int args.max_depth),
    ("n_estimators", .int args.n_estimators),
    ("max_features", .float args.max_features),
    ("seed", .int args.seed) ]

/-- `parse_hyper_parameter_inputs`: family dispatch on `model_type`; an
unknown model type raises (`none`), and argparse failures also yield `none`. -/
def parse_hyper_parameter_inputs (model_type compute_type : String) (cpu_count : Nat)
    (input_args : List String) : Option PDict :=
  if pyIn "XGBoost" model_type then
    (parseXGBArgs input_args).map (xgb_model_params compute_type cpu_count)
  else if pyIn "RandomForest" model_type then
    (parseRFArgs input_args).map rf_model_params
  else none

/-! ### Data-input resolution (`configure_data_inputs`) -/

/-- The shape `target_files` can take: a single path/wildcard string, or an
expanded list of file paths. -/
inductive TargetFiles where
  | path (s : String)
  | files (l : List String)
deriving DecidableEq, Repr

/-- `configure_data_inputs`: builds the wildcard from the `train_data`
directory and `dataset_path`, counts the matching files (the filesystem is
abstracted as the `glob` function), asserts the count positive, and shapes
`target_files` per compute type.  `none` models the failed assert. -/
def configure_data_inputs (compute_type train_data dataset_path : String)
    (glob : String → List String) : Option (TargetFiles × Nat) :=
  let target_files := train_data ++ dataset_path
  let n_datafiles := (glob target_files).length
  if 0 < n_datafiles then
    if pyIn "single-CPU" compute_type then
      some (.path ((pySplit target_files "*").headD ""), n_datafiles)
    else if pyIn "single-GPU" compute_type then
      some (.files (glob target_files), n_datafiles)
    else
      some (.path target_files, n_datafiles)
  else none

/-! ### Cluster lifecycle (`cluster_initialize`, `cluster_reinitialize`) -/

/-- `cluster_initialize`: returns the `n_workers` attribute after the call
(initially `n_workers0`, which is absent/`none` at construction), the created
cluster's worker count (`none` when no cluster was created) and whether a
client was created.  Hardware discovery (`cupy.cuda.runtime.getDeviceCount`,
`os.cpu_count`) is abstracted into `gpu_count` / `cpu_count`. -/
def cluster_initialize (compute_type model_type : String)
    (n_datafiles gpu_count cpu_count : Nat) (worker_limit : Option Nat)
    (n_workers0 : Option Nat) : Option Nat × Option Nat × Bool :=
  let s : Option Nat × Option Nat × Bool := (n_workers0, none, false)
  let s := if pyIn "multi-GPU" compute_type then
      let w := gpu_count
      let w := if pyIn "XGBoost" model_type then min n_datafiles w else w
      let w := match worker_limit with
        | some l => min l w
        | none => w
      (some w, some w, true)
    else s
  if pyIn "multi-CPU" compute_type then
    let w := cpu_count
    let w := if pyIn "XGBoost" model_type then min n_datafiles w else w
    let w := match worker_limit with
      | some l => min l w
      | none => w
    (some w, some w, true)
  else s

/-! ### Scoring (`predict`, `emit_final_score`) -/

/-- `predict`: the third-party accuracy computations are abstracted as the
oracle inputs `cuml_acc`, `sklearn_acc` (accuracy-score calls) and
`rf_single_score` (the single-node RandomForest `.score` call); the model
captures which branch supplies `test_accuracy` and the state effect on
`cv_fold_scores`.  `none` models the `NameError` raised at the final print
when no branch assigned `test_accuracy` (or `predictions`). -/
def predict (model_type compute_type : String)
    (cuml_acc sklearn_acc rf_single_score : Rat)
    (cv_fold_scores : List Rat) : Option (Rat × List Rat) :=
  let acc? : Option Rat :=
    if pyIn "XGBoost" model_type then
      if pyIn "single" compute_type ∨ pyIn "multi" compute_type then
        if pyIn "GPU" compute_type then some cuml_acc
        else if pyIn "CPU" compute_type then some sklearn_acc
        else none
      else none
    else if pyIn "RandomForest" model_type then
      if pyIn "single" compute_type then some rf_single_score
      else if pyIn "multi" compute_type then
        if pyIn "GPU" compute_type then some cuml_acc
        else if pyIn "CPU" compute_type then some sklearn_acc
        else none
      else none
    else none
  match acc? with
  | none => none
  | some a => some (a, cv_fold_scores ++ [a])

/-- `emit_final_score`: the average of the accumulated fold scores; `none`
models the `ZeroDivisionError` when no fold was scored. -/
def emit_final_score (cv_fold_scores : List Rat) : Option Rat :=
  if cv_fold_scores.length = 0 then none
  else some (cv_fold_scores.sum / (cv_fold_scores.length : Rat))

/-! ### Model persistence (`save_model`) -/

/-- How the model file is written. -/
inductive SaveMethod where
  | xgb_save_model
  | joblib_dump
deriving DecidableEq, Repr

/-- `save_model`: joins the `model_store` directory with the output filename
and dispatches on the model family; `none` means no write happened (neither
family matched). -/
def save_model (model_type model_store : String)
    (output_filename : String := "saved_model") : Option (String × SaveMethod) :=
  let out := model_store ++ "/" ++ output_filename
  if pyIn "XGBoost" model_type then some (out, .xgb_save_model)
  else if pyIn "RandomForest" model_type then some (out, .joblib_dump)
  else none

/-! ### ETL (`ETL`)

The data operations themselves live in pandas/cudf/dask/sklearn/cuml, so a
dataframe is modelled as the trace of external library calls that produced
it; `ETL` mirrors the source's branch structure over these events. -/

/-- One external dataframe operation. -/
inductive ETLEvent where
  | read (backend : String) (src : TargetFiles)
  | dropna
  | repartition (n : Nat)
  | split (backend part : String)
  | select_label (c : String)
  | drop_label (c : String)
  | astype (t : String)
deriving DecidableEq, Repr

/-- A dataframe, identified with the history of operations that built it. -/
abbrev DF := List ETLEvent

/-- `ETL`: per compute type, read the parquet dataset, `dropna`, (for multi:
repartition to `n_workers`), then train/test split; returns the traces of
`(X_train, X_test, y_train, y_test)`.  `none` models the branches that would
raise `NameError` on an unbound local, and the source's trailing
`return None` for compute types that are neither single nor multi. -/
def ETL (compute_type : String) (target_files : TargetFiles) (label_column : String)
    (n_workers : Nat) : Option (DF × DF × DF × DF) :=
  if pyIn "single" compute_type then
    if pyIn "CPU" compute_type then
      let dataset : DF := [.read "pandas" target_files]
      let dataset := dataset ++ [.dropna]
      let X := dataset ++ [.drop_label label_column]
      let y := dataset ++ [.select_label label_column]
      some (X ++ [.split "sklearn" "X_train"], X ++ [.split "sklearn" "X_test"],
            y ++ [.split "sklearn" "y_train"], y ++ [.split "sklearn" "y_test"])
    else if pyIn "GPU" compute_type then
      let dataset : DF := [.read "cudf" target_files]
      let dataset := dataset ++ [.dropna]
      some (dataset ++ [.split "cuml" "X_train"], dataset ++ [.split "cuml" "X_test"],
            dataset ++ [.split "cuml" "y_train"], dataset ++ [.split "cuml" "y_test"])
    else none
  else if pyIn "multi" compute_type then
    let dataset? : Option DF :=
      if pyIn "CPU" compute_type then some [.read "dask" target_files]
      else if pyIn "GPU" compute_type then some [.read "dask_cudf" target_files]
      else none
    match dataset? with
    | none => none
    | some dataset =>
      let dataset := dataset ++ [.dropna]
      let dataset := dataset ++ [.repartition n_workers]
      let train := dataset ++ [.split "dask_ml" "train"]
      let test := dataset ++ [.split "dask_ml" "test"]
      some (train ++ [.drop_label label_column, .astype "float32"],
            test ++ [.drop_label label_column, .astype "float32"],
            train ++ [.select_label label_column, .astype "int32"],
            test ++ [.select_label label_column, .astype "int32"])
  else none

/-- First index matched by `p` (structural, so it evaluates everywhere). -/
def findIdxO (p : ETLEvent → Bool) : DF → Option Nat
  | [] => none
  | e :: rest => if p e then some 0 else (findIdxO p rest).map (· + 1)

/-- Recognize a read event. -/
def isReadEv : ETLEvent → Bool
  | .read _ _ => true
  | _ => false

/-- Recognize a split event. -/
def isSplitEv : ETLEvent → Bool
  | .split _ _ => true
  | _ => false

/-- Recognize a repartition-to-`n` event. -/
def isRepartEvTo (n : Nat) : ETLEvent → Bool
  | .repartition m => m == n
  | _ => false

/-- Recognize the dropna event. -/
def isDropnaEv : ETLEvent → Bool
  | .dropna => true
  | _ => false

/-- The load/clean/split order stated by the spec: the trace starts with a
read, and a `dropna` occurs before any split. -/
def etlOrdered (t : DF) : Bool :=
  match t with
  | [] => false
  | e :: rest =>
    isReadEv e &&
      match findIdxO isDropnaEv rest, findIdxO isSplitEv rest with
      | some i, some j => decide (i < j)
      | _, _ => false

/-- A repartition to exactly `n` partitions occurs after the `dropna` and
before the split. -/
def repartitionBetween (n : Nat) (t : DF) : Bool :=
  match findIdxO isDropnaEv t, findIdxO (isRepartEvTo n) t, findIdxO isSplitEv t with
  | some i, some k, some j => decide (i < k) && decide (k < j)
  | _, _, _ => false

/-! ### Object state (`RapidsCloudML.__init__`, `cluster_reinitialize`) -/

/-- The attributes a `RapidsCloudML` object holds after `__init__`.
`n_workers`, `cluster` and `client` are `Option`/`Bool` because the
attributes are only ever created in the multi-node compute modes;
`cluster = some w` stands for a live Local(CUDA)Cluster with `w` workers. -/
structure RCML where
  model_type : String
  compute_type : String
  cv_folds : Int
  model_params : PDict
  dataset_path : String
  train_data_dir : String
  model_store_dir : String
  target_files : TargetFiles
  n_datafiles : Nat
  n_workers : Option Nat
  cluster : Option Nat
  client : Bool
  cv_fold_scores : List Rat
  best_score : Int
deriving DecidableEq, Repr

/-- `RapidsCloudML.__init__`: job-name parsing, hyper-parameter parsing,
data-input resolution, then (only for multi compute types) cluster creation.
Any exception along the way (modelled `none`) aborts construction. -/
def rcml_init (env_job_name : Option String) (input_args : List String)
    (glob : String → List String) (gpu_count cpu_count : Nat)
    (dataset_path : String := "*.parquet")
    (train_data : String := default_train_data_dir)
    (model_store : String := default_model_store_dir)
    (worker_limit : Option Nat := none) : Option RCML :=
  match parse_job_name env_job_name with
  | none => none
  | some (mt, ct, cv) =>
    match parse_hyper_parameter_inputs mt ct cpu_count input_args with
    | none => none
    | some mp =>
      match configure_data_inputs ct train_data dataset_path glob with
      | none => none
      | some (tf, nd) =>
        let r : Option Nat × Option Nat × Bool :=
          if pyIn "multi" ct then
            cluster_initialize ct mt nd gpu_count cpu_count worker_limit none
          else (none, none, false)
        some { model_type := mt, compute_type := ct, cv_folds := cv,
               model_params := mp, dataset_path := dataset_path,
               train_data_dir := train_data, model_store_dir := model_store,
               target_files := tf, n_datafiles := nd,
               n_workers := r.1, cluster := r.2.1, client := r.2.2,
               cv_fold_scores := [], best_score := -1 }

/-- `cluster_reinitialize`: in multi compute modes closes the cluster/client
and re-creates them via `cluster_initialize()` (note: without the original
`worker_limit`); otherwise does nothing. -/
def cluster_reinitialize (gpu_count cpu_count : Nat) (st : RCML) : RCML :=
  if pyIn "multi" st.compute_type then
    let r := cluster_initialize st.compute_type st.model_type st.n_datafiles
      gpu_count cpu_count none st.n_workers
    { st with n_workers := r.1, cluster := r.2.1, client := r.2.2 }
  else st

/-! ## Helper lemmas -/

/-- Cap a worker count by an optional limit (the `worker_limit` handling). -/
def optCap (limit : Option Nat) (x : Nat) : Nat :=
  match limit with
  | none => x
  | some l => min l x

/-- A flag that never occurs in the argument vector looks up as absent. -/
theorem argLookup_of_not_contains (flag : String) (input : List String)
    (h : input.contains flag = false) : argLookup flag input = .absent := by
  induction input with
  | nil => rfl
  | cons x xs ih =>
    rw [List.contains_cons, Bool.or_eq_false_iff] at h
    have hx : (x == flag) = false := by
      rcases h with ⟨h1, -⟩
      simp only [beq_eq_false_iff_ne] at h1 ⊢
      exact fun e => h1 e.symm
    simp [argLookup, ih h.2, hx]

/-- The XGBoost params dict always carries the objective, the GPU/CPU tree
method, the conditional nthreads entry, and the parsed depth/round counts. -/
theorem xgb_params_lookup (ct : String) (cc : Nat) (args : XGBArgs) :
    dictGet? (xgb_model_params ct cc args) "objective" = some (.str "binary:logistic") ∧
    dictGet? (xgb_model_params ct cc args) "tree_method" =
      some (.str (if pyIn "GPU" ct then "gpu_hist" else "hist")) ∧
    dictHasKey (xgb_model_params ct cc args) "nthreads" = pyIn "single-CPU" ct ∧
    dictGet? (xgb_model_params ct cc args) "max_depth" = some (.int args.max_depth) ∧
    dictGet? (xgb_model_params ct cc args) "num_boost_round" =
      some (.int args.num_boost_round) := by
  cases h1 : pyIn "single-CPU" ct <;> cases h2 : pyIn "GPU" ct <;>
    simp only [xgb_model_params, h1, h2, if_true, if_false, Bool.false_eq_true,
      if_neg Bool.false_ne_true] <;>
    exact ⟨rfl, rfl, rfl, rfl, rfl⟩

/-- When a flag is absent from the argument vector, the corresponding parsed
XGBoost field is its declared default. -/
theorem parseXGBArgs_defaults (input : List String) (a : XGBArgs)
    (h : parseXGBArgs input = some a) :
    (input.contains "--max_depth" = false → a.max_depth = default_max_depth) ∧
    (input.contains "--num_boost_round" = false →
      a.num_boost_round = default_n_estimators) := by
  simp only [parseXGBArgs, Option.bind_eq_some, Option.some.injEq] at h
  obtain ⟨md, hmd, nbr, hnbr, ss, -, lr, -, l2, -, g, -, al, -, sd, -, ha⟩ := h
  subst ha
  constructor
  · intro hnc
    have e : getIntArg input "--max_depth" default_max_depth = some default_max_depth := by
      simp [getIntArg, argLookup_of_not_contains _ _ hnc]
    rw [e] at hmd
    exact (Option.some.inj hmd).symm
  · intro hnc
    have e : getIntArg input "--num_boost_round" default_n_estimators =
        some default_n_estimators := by
      simp [getIntArg, argLookup_of_not_contains _ _ hnc]
    rw [e] at hnbr
    exact (Option.some.inj hnbr).symm

/-- When a flag is absent from the argument vector, the corresponding parsed
RandomForest field is its declared default. -/
theorem parseRFArgs_defaults (input : List String) (a : RFArgs)
    (h : parseRFArgs input = some a) :
    (input.contains "--max_depth" = false → a.max_depth = default_max_depth) ∧
    (input.contains "--n_estimators" = false → a.n_estimators = default_n_estimators) := by
  simp only [parseRFArgs, Option.bind_eq_some, Option.some.injEq] at h
  obtain ⟨md, hmd, ne, hne, mf, -, sd, -, ha⟩ := h
  subst ha
  constructor
  · intro hnc
    have e : getIntArg input "--max_depth" default_max_depth = some default_max_depth := by
      simp [getIntArg, argLookup_of_not_contains _ _ hnc]
    rw [e] at hmd
    exact (Option.some.inj hmd).symm
  · intro hnc
    have e : getIntArg input "--n_estimators" default_n_estimators =
        some default_n_estimators := by
      simp [getIntArg, argLookup_of_not_contains _ _ hnc]
    rw [e] at hne
    exact (Option.some.inj hne).symm

/-- When the second job-name field carries none of the four compute tokens,
the default compute type survives and the trailing assert rejects it. -/
theorem parse_job_name_tokenless (jn f1 : String)
    (h1 : (pySplit jn "-").get? 1 = some f1)
    (hm : pyIn "mgpu" (pyLower f1) = false) (hmc : pyIn "mcpu" (pyLower f1) = false)
    (hsc : pyIn "scpu" (pyLower f1) = false) (hsg : pyIn "sgpu" (pyLower f1) = false) :
    parse_job_name (some jn) = none := by
  have hts : (tryStages jn).2.1 = default_compute_type := by
    simp only [tryStages, h1, hm, hmc, hsc, hsg, Bool.false_eq_true, if_false]
    cases (pySplit jn "-").get? 2 with
    | none => rfl
    | some f2 =>
      dsimp only
      cases (pySplit jn "-").get? 3 with
      | none => rfl
      | some f3 =>
        dsimp only
        cases pyInt? ((pySplit f3 "cv").headD "") with
        | none => rfl
        | some n => rfl
  simp only [parse_job_name]
  exact if_neg (fun hcond => absurd (hts ▸ hcond.2.1) (by decide))

/-! ## Claims -/

/-- C7: `save_model` writes the trained model to the path obtained by joining
the model-store directory with the output filename (default `saved_model`),
via the model's own `save_model` for XGBoost and `joblib.dump` for
RandomForest. -/
theorem spec_c7 (store fname : String) :
    save_model "XGBoost" store fname = some (store ++ "/" ++ fname, .xgb_save_model) ∧
    save_model "RandomForest" store fname = some (store ++ "/" ++ fname, .joblib_dump) ∧
    save_model "XGBoost" store = some (store ++ "/" ++ "saved_model", .xgb_save_model) ∧
    save_model "RandomForest" store = some (store ++ "/" ++ "saved_model", .joblib_dump) :=
  ⟨rfl, rfl, rfl, rfl⟩

/-- C3: `configure_data_inputs` returns the count of files matching the
train-directory + dataset-path wildcard together with `target_files` shaped
per compute type: the pre-`*` directory prefix for single-CPU, the expanded
file list for single-GPU, and the unmodified wildcard for multi-CPU/GPU. -/
theorem spec_c3 (train_data dataset_path : String) (glob : String → List String)
    (h : 0 < (glob (train_data ++ dataset_path)).length) :
    configure_data_inputs "single-CPU" train_data dataset_path glob =
      some (.path ((pySplit (train_data ++ dataset_path) "*").headD ""),
        (glob (train_data ++ dataset_path)).length) ∧
    configure_data_inputs "single-GPU" train_data dataset_path glob =
      some (.files (glob (train_data ++ dataset_path)),
        (glob (train_data ++ dataset_path)).length) ∧
    configure_data_inputs "multi-CPU" train_data dataset_path glob =
      some (.path (train_data ++ dataset_path),
        (glob (train_data ++ dataset_path)).length) ∧
    configure_data_inputs "multi-GPU" train_data dataset_path glob =
      some (.path (train_data ++ dataset_path),
        (glob (train_data ++ dataset_path)).length) := by
  have e1 : pyIn "single-CPU" "single-CPU" = true := by decide
  have e2 : pyIn "single-CPU" "single-GPU" = false := by decide
  have e3 : pyIn "single-GPU" "single-GPU" = true := by decide
  have e4 : pyIn "single-CPU" "multi-CPU" = false := by decide
  have e5 : pyIn "single-GPU" "multi-CPU" = false := by decide
  have e6 : pyIn "single-CPU" "multi-GPU" = false := by decide
  have e7 : pyIn "single-GPU" "multi-GPU" = false := by decide
  refine ⟨?_, ?_, ?_, ?_⟩ <;>
    simp [configure_data_inputs, h, e1, e2, e3, e4, e5, e6, e7]

/-- C2: after `cluster_initialize` for a multi compute type, `n_workers` is
the hardware worker count (GPU device count for multi-GPU, CPU count for
multi-CPU), capped by `n_datafiles` when the model is XGBoost and by
`worker_limit` when given; hence multi-node XGBoost never exceeds one worker
per data file. -/
theorem spec_c2 (model_type : String) (n_datafiles gpu_count cpu_count : Nat)
    (worker_limit : Option Nat) :
    (( cluster_initialize "multi-GPU" model_type n_datafiles gpu_count cpu_count
        worker_limit none).1 =
      some (optCap worker_limit
        (if pyIn "XGBoost" model_type then min n_datafiles gpu_count else gpu_count))) ∧
    (( cluster_initialize "multi-CPU" model_type n_datafiles gpu_count cpu_count
        worker_limit none).1 =
      some (optCap worker_limit
        (if pyIn "XGBoost" model_type then min n_datafiles cpu_count else cpu_count))) ∧
    (∀ n, ( cluster_initialize "multi-GPU" "XGBoost" n_datafiles gpu_count cpu_count
        worker_limit none).1 = some n → n ≤ n_datafiles) ∧
    (∀ n, ( cluster_initialize "multi-CPU" "XGBoost" n_datafiles gpu_count cpu_count
        worker_limit none).1 = some n → n ≤ n_datafiles) := by
  have e1 : pyIn "multi-GPU" "multi-GPU" = true := by decide
  have e2 : pyIn "multi-CPU" "multi-GPU" = false := by decide
  have e3 : pyIn "multi-GPU" "multi-CPU" = false := by decide
  have e4 : pyIn "multi-CPU" "multi-CPU" = true := by decide
  have e5 : pyIn "XGBoost" "XGBoost" = true := by decide
  refine ⟨?_, ?_, ?_, ?_⟩
  · cases worker_limit <;> simp [ cluster_initialize, optCap, e1, e2]
  · cases worker_limit <;> simp [ cluster_initialize, optCap, e3, e4]
  · intro n hn
    cases worker_limit <;> simp [ cluster_initialize, e1, e2, e5] at hn <;> omega
  · intro n hn
    cases worker_limit <;> simp [ cluster_initialize, e3, e4, e5] at hn <;> omega

/-- C5: every `predict` call appends exactly one accuracy value to
`cv_fold_scores` (so after `k` calls the list has length `k`), and
`emit_final_score` is the arithmetic mean of the accumulated fold scores. -/
theorem spec_c5 (model_type compute_type : String)
    (cuml_acc sklearn_acc rf_single_score : Rat) (scores : List Rat)
    (hm : model_type ∈ (["XGBoost", "RandomForest"] : List String))
    (hc : compute_type ∈ (["single-GPU", "multi-GPU", "single-CPU", "multi-CPU"] : List String)) :
    (∃ a, predict model_type compute_type cuml_acc sklearn_acc rf_single_score scores =
        some (a, scores ++ [a]) ∧ (scores ++ [a]).length = scores.length + 1) ∧
    (∀ s : List Rat, s ≠ [] → emit_final_score s = some (s.sum / (s.length : Rat))) := by
  constructor
  · simp only [List.mem_cons, List.mem_singleton, List.not_mem_nil, or_false] at hm hc
    rcases hm with rfl | rfl <;> rcases hc with rfl | rfl | rfl | rfl <;>
      exact ⟨_, rfl, by simp⟩
  · intro s hs
    have : s.length ≠ 0 := by
      simpa [List.length_eq_zero] using hs
    simp [emit_final_score, this]

/-- C10: for XGBoost jobs, `--subsample` and `--alpha` are declared and
parsed, but their values never reach the returned model-parameter mapping,
so passing them has no effect on the parameters used for training. -/
theorem spec_c10 (compute_type : String) (cpu_count : Nat) (args : XGBArgs)
    (s1 a1 s2 a2 : DecFloat) :
    dictHasKey (xgb_model_params compute_type cpu_count args) "subsample" = false ∧
    dictHasKey (xgb_model_params compute_type cpu_count args) "alpha" = false ∧
    xgb_model_params compute_type cpu_count { args with subsample := s1, alpha := a1 } =
      xgb_model_params compute_type cpu_count { args with subsample := s2, alpha := a2 } ∧
    parseXGBArgs ["--subsample", "0.9", "--alpha", "7.5"] =
      some ⟨5, 10, ⟨false, 9, 1⟩, ⟨false, 3, 1⟩, ⟨false, 2, 1⟩, ⟨false, 0, 0⟩,
            ⟨false, 75, 1⟩, 0⟩ ∧
    parse_hyper_parameter_inputs "XGBoost" compute_type cpu_count
        ["--subsample", "0.9", "--alpha", "7.5"] =
      parse_hyper_parameter_inputs "XGBoost" compute_type cpu_count [] := by
  have hparse : parseXGBArgs ["--subsample", "0.9", "--alpha", "7.5"] =
      some ⟨5, 10, ⟨false, 9, 1⟩, ⟨false, 3, 1⟩, ⟨false, 2, 1⟩, ⟨false, 0, 0⟩,
            ⟨false, 75, 1⟩, 0⟩ := by decide
  have hdflt : parseXGBArgs [] =
      some ⟨5, 10, ⟨false, 25, 2⟩, ⟨false, 3, 1⟩, ⟨false, 2, 1⟩, ⟨false, 0, 0⟩,
            ⟨false, 0, 0⟩, 0⟩ := by decide
  have hindep : ∀ (md nbr sd : Int) (lr l2 g : DecFloat), ∀ u1 v1 u2 v2 : DecFloat,
      xgb_model_params compute_type cpu_count ⟨md, nbr, u1, lr, l2, g, v1, sd⟩ =
        xgb_model_params compute_type cpu_count ⟨md, nbr, u2, lr, l2, g, v2, sd⟩ := by
    intro md nbr sd lr l2 g u1 v1 u2 v2
    cases h1 : pyIn "single-CPU" compute_type <;> cases h2 : pyIn "GPU" compute_type <;>
      simp [xgb_model_params, h1, h2]
  have hkeys : dictHasKey (xgb_model_params compute_type cpu_count args) "subsample" = false ∧
      dictHasKey (xgb_model_params compute_type cpu_count args) "alpha" = false := by
    cases h1 : pyIn "single-CPU" compute_type <;> cases h2 : pyIn "GPU" compute_type <;>
      simp [xgb_model_params, h1, h2] <;> exact ⟨rfl, rfl⟩
  obtain ⟨md, nbr, ss, lr, l2, g, al, sd⟩ := args
  refine ⟨hkeys.1, hkeys.2, hindep md nbr sd lr l2 g s1 a1 s2 a2, hparse, ?_⟩
  have e1 : pyIn "XGBoost" "XGBoost" = true := by decide
  simp only [parse_hyper_parameter_inputs, e1, if_true, hparse, hdflt, Option.map_some']
  rw [hindep 5 10 0 ⟨false, 3, 1⟩ ⟨false, 2, 1⟩ ⟨false, 0, 0⟩
    ⟨false, 9, 1⟩ ⟨false, 75, 1⟩ ⟨false, 25, 2⟩ ⟨false, 0, 0⟩]

/-- C6: `parse_hyper_parameter_inputs` returns a family-specific mapping —
XGBoost always carries objective `binary:logistic` and tree_method
`gpu_hist` exactly when the compute type contains `GPU` (else `hist`), with
an nthreads entry only for single-CPU; RandomForest carries exactly
max_depth, n_estimators, max_features and seed; and in both families
max_depth defaults to 5 and the round/estimator count to 10 when their
flags are absent. -/
theorem spec_c6 (ct : String) (cc : Nat) (input : List String) (mp : PDict) :
    (parse_hyper_parameter_inputs "XGBoost" ct cc input = some mp →
      dictGet? mp "objective" = some (.str "binary:logistic") ∧
      dictGet? mp "tree_method" = some (.str (if pyIn "GPU" ct then "gpu_hist" else "hist")) ∧
      dictHasKey mp "nthreads" = pyIn "single-CPU" ct ∧
      (input.contains "--max_depth" = false → dictGet? mp "max_depth" = some (.int 5)) ∧
      (input.contains "--num_boost_round" = false →
        dictGet? mp "num_boost_round" = some (.int 10))) ∧
    (parse_hyper_parameter_inputs "RandomForest" ct cc input = some mp →
      mp.map Prod.fst = ["max_depth", "n_estimators", "max_features", "seed"] ∧
      (input.contains "--max_depth" = false → dictGet? mp "max_depth" = some (.int 5)) ∧
      (input.contains "--n_estimators" = false →
        dictGet? mp "n_estimators" = some (.int 10))) := by
  constructor
  · intro h
    simp only [parse_hyper_parameter_inputs] at h
    rw [if_pos (by decide : pyIn "XGBoost" "XGBoost" = true), Option.map_eq_some'] at h
    obtain ⟨a, ha, rfl⟩ := h
    have hf := xgb_params_lookup ct cc a
    have hd := parseXGBArgs_defaults input a ha
    refine ⟨hf.1, hf.2.1, hf.2.2.1, fun hnc => ?_, fun hnc => ?_⟩
    · rw [hf.2.2.2.1, hd.1 hnc]
      rfl
    · rw [hf.2.2.2.2, hd.2 hnc]
      rfl
  · intro h
    simp only [parse_hyper_parameter_inputs] at h
    rw [if_neg (by decide : ¬ pyIn "XGBoost" "RandomForest" = true),
      if_pos (by decide : pyIn "RandomForest" "RandomForest" = true),
      Option.map_eq_some'] at h
    obtain ⟨a, ha, rfl⟩ := h
    have hd := parseRFArgs_defaults input a ha
    refine ⟨rfl, fun hnc => ?_, fun hnc => ?_⟩
    · show dictGet? (rf_model_params a) "max_depth" = some (.int 5)
      rw [show dictGet? (rf_model_params a) "max_depth" = some (.int a.max_depth) from rfl,
        hd.1 hnc]
      rfl
    · show dictGet? (rf_model_params a) "n_estimators" = some (.int 10)
      rw [show dictGet? (rf_model_params a) "n_estimators" = some (.int a.n_estimators) from
        rfl, hd.2 hnc]
      rfl

/-- C4: in all four compute modes `ETL` loads the dataset, drops rows with
missing values, then splits into train/test and returns the four subsets;
in the multi modes it additionally repartitions to exactly `n_workers`
partitions after the dropna and before the split. -/
theorem spec_c4 (tf : TargetFiles) (label : String) (n : Nat) :
    (∃ X1 X2 y1 y2, ETL "single-CPU" tf label n = some (X1, X2, y1, y2) ∧
      etlOrdered X1 = true ∧ etlOrdered X2 = true ∧
      etlOrdered y1 = true ∧ etlOrdered y2 = true) ∧
    (∃ X1 X2 y1 y2, ETL "single-GPU" tf label n = some (X1, X2, y1, y2) ∧
      etlOrdered X1 = true ∧ etlOrdered X2 = true ∧
      etlOrdered y1 = true ∧ etlOrdered y2 = true) ∧
    (∃ X1 X2 y1 y2, ETL "multi-CPU" tf label n = some (X1, X2, y1, y2) ∧
      (etlOrdered X1 = true ∧ etlOrdered X2 = true ∧
       etlOrdered y1 = true ∧ etlOrdered y2 = true) ∧
      (repartitionBetween n X1 = true ∧ repartitionBetween n X2 = true ∧
       repartitionBetween n y1 = true ∧ repartitionBetween n y2 = true)) ∧
    (∃ X1 X2 y1 y2, ETL "multi-GPU" tf label n = some (X1, X2, y1, y2) ∧
      (etlOrdered X1 = true ∧ etlOrdered X2 = true ∧
       etlOrdered y1 = true ∧ etlOrdered y2 = true) ∧
      (repartitionBetween n X1 = true ∧ repartitionBetween n X2 = true ∧
       repartitionBetween n y1 = true ∧ repartitionBetween n y2 = true)) := by
  refine ⟨⟨_, _, _, _, rfl, rfl, rfl, rfl, rfl⟩, ⟨_, _, _, _, rfl, rfl, rfl, rfl, rfl⟩,
    ⟨_, _, _, _, rfl, ⟨rfl, rfl, rfl, rfl⟩, ⟨?_, ?_, ?_, ?_⟩⟩,
    ⟨_, _, _, _, rfl, ⟨rfl, rfl, rfl, rfl⟩, ⟨?_, ?_, ?_, ?_⟩⟩⟩ <;>
    simp [repartitionBetween, findIdxO, isDropnaEv, isRepartEvTo, isSplitEv]

/-- C8: a cluster and client are created at construction exactly when the
compute type contains `multi`; in the single-node modes no cluster, client
or worker-count attribute exists, and `cluster_reinitialize` leaves the
whole object unchanged. -/
theorem spec_c8 (env : Option String) (input : List String) (glob : String → List String)
    (gpu_count cpu_count : Nat) (dp td ms : String) (wl : Option Nat) (st : RCML)
    (h : rcml_init env input glob gpu_count cpu_count dp td ms wl = some st) :
    ((st.compute_type = "single-CPU" ∨ st.compute_type = "single-GPU") →
      st.cluster = none ∧ st.client = false ∧ st.n_workers = none ∧
      cluster_reinitialize gpu_count cpu_count st = st) ∧
    ((st.compute_type = "multi-CPU" ∨ st.compute_type = "multi-GPU") →
      ∃ w, st.cluster = some w ∧ st.client = true) := by
  cases hp : parse_job_name env with
  | none => simp only [rcml_init, hp] at h; exact Option.noConfusion h
  | some r =>
    obtain ⟨mt, ct, cv⟩ := r
    cases hh : parse_hyper_parameter_inputs mt ct cpu_count input with
    | none => simp only [rcml_init, hp, hh] at h; exact Option.noConfusion h
    | some mp =>
      cases hd : configure_data_inputs ct td dp glob with
      | none => simp only [rcml_init, hp, hh, hd] at h; exact Option.noConfusion h
      | some r2 =>
        obtain ⟨tfv, nd⟩ := r2
        simp only [rcml_init, hp, hh, hd, Option.some.injEq] at h
        subst h
        constructor
        · intro hsingle
          rcases hsingle with h1 | h1 <;> subst h1 <;>
            simp [ cluster_reinitialize, (by decide : pyIn "multi" "single-CPU" = false),
              (by decide : pyIn "multi" "single-GPU" = false)]
        · intro hmulti
          rcases hmulti with h1 | h1 <;> subst h1
          · simp [ cluster_initialize, (by decide : pyIn "multi" "multi-CPU" = true),
              (by decide : pyIn "multi-GPU" "multi-CPU" = false),
              (by decide : pyIn "multi-CPU" "multi-CPU" = true)]
          · simp [ cluster_initialize, (by decide : pyIn "multi" "multi-GPU" = true),
              (by decide : pyIn "multi-GPU" "multi-GPU" = true),
              (by decide : pyIn "multi-CPU" "multi-GPU" = false)]

/-- C9: when `SM_TRAINING_ENV` is absent, or the job name's second field
carries none of the tokens mgpu/mcpu/scpu/sgpu, `parse_job_name` hits its
asserts (modelled `none`) instead of returning a default configuration,
because the fallback compute type is the misspelled `sigle-GPU`, which is
outside the asserted set; consequently constructing a `RapidsCloudML`
object fails in those situations. -/
theorem spec_c9 :
    parse_job_name none = none ∧
    default_compute_type = "sigle-GPU" ∧
    default_compute_type ∉ (["single-GPU", "multi-GPU", "single-CPU", "multi-CPU"] : List String) ∧
    (∀ jn f1, (pySplit jn "-").get? 1 = some f1 →
      pyIn "mgpu" (pyLower f1) = false → pyIn "mcpu" (pyLower f1) = false →
      pyIn "scpu" (pyLower f1) = false → pyIn "sgpu" (pyLower f1) = false →
      parse_job_name (some jn) = none) ∧
    (∀ input glob gpu_count cpu_count dp td ms wl,
      rcml_init none input glob gpu_count cpu_count dp td ms wl = none) ∧
    (∀ jn f1 input glob gpu_count cpu_count dp td ms wl,
      (pySplit jn "-").get? 1 = some f1 →
      pyIn "mgpu" (pyLower f1) = false → pyIn "mcpu" (pyLower f1) = false →
      pyIn "scpu" (pyLower f1) = false → pyIn "sgpu" (pyLower f1) = false →
      rcml_init (some jn) input glob gpu_count cpu_count dp td ms wl = none) := by
  refine ⟨by decide, rfl, by decide,
    fun jn f1 h1 hm hmc hsc hsg => parse_job_name_tokenless jn f1 h1 hm hmc hsc hsg,
    ?_, ?_⟩
  · intro input glob gpu_count cpu_count dp td ms wl
    simp only [rcml_init, (by decide : parse_job_name none = none)]
  · intro jn f1 input glob gpu_count cpu_count dp td ms wl h1 hm hmc hsc hsg
    simp only [rcml_init, parse_job_name_tokenless jn f1 h1 hm hmc hsc hsg]

/-- C1: for a job name whose second hyphen-separated field carries exactly
one of the tokens mgpu/mcpu/scpu/sgpu, whose third field carries exactly one
of rf/xgb, and whose fourth field is of the form `<N>cv...` with `N ≥ 1`,
`parse_job_name` returns the corresponding compute type, the corresponding
model type, and `cv_folds = N`, and the returned triple lies in the asserted
value sets. -/
theorem spec_c1 (jn f1 f2 f3 : String) (N : Int)
    (h1 : (pySplit jn "-").get? 1 = some f1)
    (h2 : (pySplit jn "-").get? 2 = some f2)
    (h3 : (pySplit jn "-").get? 3 = some f3)
    (hct : (["mgpu", "mcpu", "scpu", "sgpu"] : List String).countP
      (fun t => pyIn t (pyLower f1)) = 1)
    (hmt : (["rf", "xgb"] : List String).countP (fun t => pyIn t (pyLower f2)) = 1)
    (hcv : pyInt? ((pySplit f3 "cv").headD "") = some N)
    (hN : 1 ≤ N) :
    ∃ mt ct, parse_job_name (some jn) = some (mt, ct, N) ∧
      (pyIn "mgpu" (pyLower f1) = true → ct = "multi-GPU") ∧
      (pyIn "mcpu" (pyLower f1) = true → ct = "multi-CPU") ∧
      (pyIn "scpu" (pyLower f1) = true → ct = "single-CPU") ∧
      (pyIn "sgpu" (pyLower f1) = true → ct = "single-GPU") ∧
      (pyIn "rf" (pyLower f2) = true → mt = "RandomForest") ∧
      (pyIn "xgb" (pyLower f2) = true → mt = "XGBoost") ∧
      mt ∈ (["RandomForest", "XGBoost"] : List String) ∧
      ct ∈ (["single-GPU", "multi-GPU", "single-CPU", "multi-CPU"] : List String) ∧
      1 ≤ N := by
  simp only [List.get?_eq_getElem?] at h1 h2 h3
  simp only [List.headD_eq_head?] at hcv
  cases hm : pyIn "mgpu" (pyLower f1) <;> cases hmc : pyIn "mcpu" (pyLower f1) <;>
    cases hsc : pyIn "scpu" (pyLower f1) <;> cases hsg : pyIn "sgpu" (pyLower f1) <;>
    cases hrf : pyIn "rf" (pyLower f2) <;> cases hxgb : pyIn "xgb" (pyLower f2) <;>
    first
      | (exfalso; revert hct;
         simp [List.countP_cons, List.countP_nil, hm, hmc, hsc, hsg]; done)
      | (exfalso; revert hmt;
         simp [List.countP_cons, List.countP_nil, hrf, hxgb]; done)
      | (refine ⟨(tryStages jn).1, (tryStages jn).2.1,
          ?_, ?_, ?_, ?_, ?_, ?_, ?_, ?_, ?_, hN⟩ <;>
        simp [parse_job_name, tryStages, h1, h2, h3, hcv, hm, hmc, hsc, hsg,
          hrf, hxgb, hN])

/-! ## Witnesses -/

/-- Concrete single-CPU object produced by a successful construction. -/
def rcmlSingleCPUExample : RCML :=
  { model_type := "RandomForest", compute_type := "single-CPU", cv_folds := 1,
    model_params := [("max_depth", .int 5), ("n_estimators", .int 10),
                     ("max_features", .float ⟨false, 25, 2⟩), ("seed", .int 0)],
    dataset_path := "*.parquet",
    train_data_dir := "/opt/ml/input/data/training/",
    model_store_dir := "/opt/ml/model",
    target_files := .path "/opt/ml/input/data/training/",
    n_datafiles := 1, n_workers := none, cluster := none, client := false,
    cv_fold_scores := [], best_score := -1 }

/-- Witness for C1 at the job name `airline-mgpu-xgb-10cv`. -/
theorem spec_c1_witness :
    ((pySplit "airline-mgpu-xgb-10cv" "-").get? 1 = some "mgpu") ∧
    pyInt? ((pySplit "10cv" "cv").headD "") = some 10 ∧
    (∃ mt ct, parse_job_name (some "airline-mgpu-xgb-10cv") = some (mt, ct, 10) ∧
      (pyIn "mgpu" (pyLower "mgpu") = true → ct = "multi-GPU") ∧
      (pyIn "mcpu" (pyLower "mgpu") = true → ct = "multi-CPU") ∧
      (pyIn "scpu" (pyLower "mgpu") = true → ct = "single-CPU") ∧
      (pyIn "sgpu" (pyLower "mgpu") = true → ct = "single-GPU") ∧
      (pyIn "rf" (pyLower "xgb") = true → mt = "RandomForest") ∧
      (pyIn "xgb" (pyLower "xgb") = true → mt = "XGBoost") ∧
      mt ∈ (["RandomForest", "XGBoost"] : List String) ∧
      ct ∈ (["single-GPU", "multi-GPU", "single-CPU", "multi-CPU"] : List String) ∧
      (1 : Int) ≤ 10) :=
  ⟨by decide, by decide,
    spec_c1 "airline-mgpu-xgb-10cv" "mgpu" "xgb" "10cv" 10 (by decide) (by decide)
      (by decide) (by decide) (by decide) (by decide) (by decide)⟩

/-- Witness for C2 with 3 data files, 5 GPUs, 4 CPUs and no worker limit. -/
theorem spec_c2_witness :
    (( cluster_initialize "multi-GPU" "XGBoost" 3 5 4 none none).1 = some 3) ∧ 3 ≤ 3 :=
  ⟨by decide, (spec_c2 "XGBoost" 3 5 4 none).2.2.1 3 (by decide)⟩

/-- Witness for C3 with a one-file glob result. -/
theorem spec_c3_witness :
    0 < ((fun _ : String => ["p0.parquet"])
        ("/opt/ml/input/data/training/" ++ "*.parquet")).length ∧
    configure_data_inputs "multi-GPU" "/opt/ml/input/data/training/" "*.parquet"
        (fun _ => ["p0.parquet"]) =
      some (.path ("/opt/ml/input/data/training/" ++ "*.parquet"),
        ((fun _ : String => ["p0.parquet"])
          ("/opt/ml/input/data/training/" ++ "*.parquet")).length) :=
  ⟨by decide,
    (spec_c3 "/opt/ml/input/data/training/" "*.parquet" (fun _ => ["p0.parquet"])
      (by decide)).2.2.2⟩

/-- Witness for C5 on a multi-GPU XGBoost job starting from no fold scores. -/
theorem spec_c5_witness :
    ("XGBoost" ∈ (["XGBoost", "RandomForest"] : List String)) ∧
    ((∃ a, predict "XGBoost" "multi-GPU" 1 2 3 [] = some (a, [] ++ [a]) ∧
        (([] : List Rat) ++ [a]).length = ([] : List Rat).length + 1) ∧
      (∀ s : List Rat, s ≠ [] → emit_final_score s = some (s.sum / (s.length : Rat)))) :=
  ⟨by decide, spec_c5 "XGBoost" "multi-GPU" 1 2 3 [] (by decide) (by decide)⟩

/-- Witness for C6 on a RandomForest job with no flags passed. -/
theorem spec_c6_witness :
    (parse_hyper_parameter_inputs "RandomForest" "single-CPU" 8 [] =
      some [("max_depth", PValue.int 5), ("n_estimators", PValue.int 10),
            ("max_features", PValue.float ⟨false, 25, 2⟩), ("seed", PValue.int 0)]) ∧
    ([("max_depth", PValue.int 5), ("n_estimators", PValue.int 10),
      ("max_features", PValue.float ⟨false, 25, 2⟩),
      ("seed", PValue.int 0)].map Prod.fst =
        ["max_depth", "n_estimators", "max_features", "seed"] ∧
     (([] : List String).contains "--max_depth" = false →
        dictGet? [("max_depth", PValue.int 5), ("n_estimators", PValue.int 10),
          ("max_features", PValue.float ⟨false, 25, 2⟩), ("seed", PValue.int 0)]
          "max_depth" = some (PValue.int 5)) ∧
     (([] : List String).contains "--n_estimators" = false →
        dictGet? [("max_depth", PValue.int 5), ("n_estimators", PValue.int 10),
          ("max_features", PValue.float ⟨false, 25, 2⟩), ("seed", PValue.int 0)]
          "n_estimators" = some (PValue.int 10))) :=
  ⟨by decide, (spec_c6 "single-CPU" 8 []
      [("max_depth", PValue.int 5), ("n_estimators", PValue.int 10),
       ("max_features", PValue.float ⟨false, 25, 2⟩), ("seed", PValue.int 0)]).2
    (by decide)⟩

/-- Witness for C8 on a successfully constructed single-CPU object. -/
theorem spec_c8_witness :
    (rcml_init (some "air-scpu-rf-1cv") [] (fun _ => ["p0.parquet"]) 1 4 "*.parquet"
        "/opt/ml/input/data/training/" "/opt/ml/model" none = some rcmlSingleCPUExample) ∧
    (rcmlSingleCPUExample.cluster = none ∧ rcmlSingleCPUExample.client = false ∧
      rcmlSingleCPUExample.n_workers = none ∧
      cluster_reinitialize 1 4 rcmlSingleCPUExample = rcmlSingleCPUExample) :=
  ⟨by decide,
    (spec_c8 (some "air-scpu-rf-1cv") [] (fun _ => ["p0.parquet"]) 1 4 "*.parquet"
      "/opt/ml/input/data/training/" "/opt/ml/model" none rcmlSingleCPUExample
      (by decide)).1 (Or.inl rfl)⟩

/-- Witness for C9 at a job name whose second field has no compute token. -/
theorem spec_c9_witness :
    ((pySplit "air-foo-xgb-1cv" "-").get? 1 = some "foo") ∧
    pyIn "mgpu" (pyLower "foo") = false ∧
    parse_job_name (some "air-foo-xgb-1cv") = none :=
  ⟨by decide, by decide,
    spec_c9.2.2.2.1 "air-foo-xgb-1cv" "foo" (by decide) (by decide) (by decide)
      (by decide) (by decide)⟩
